import Mathlib

/-!
Verification of the pyhydra Hydra-head client.

This file shallowly embeds the Python sources of the pyhydra repository
(`pyhydra/models/assets.py`, `pyhydra/models/hydra_reference_script.py`,
`pyhydra/connections/hydra_connection.py`, `pyhydra/providers/hydra_provider.py`,
`pyhydra/types/hydra_status.py`, `pyhydra/utils/parse_error.py`) and proves or
refutes the frozen specification claims about them.

Modelling conventions:
* Python `dict`s are insertion-ordered association lists (`List (String × α)`).
* Fallible Python code returns `Except PyExc α`; raising an exception is the
  `.error` constructor.  A Python `raise v` where `v` is not an exception
  instance (for example a `str`) itself raises
  `TypeError: exceptions must derive from BaseException`; this is modelled by
  `pyRaiseNonException`.
* `await v` where `v` is `None` (awaiting the result of a synchronous call)
  raises `TypeError: object NoneType can't be used in 'await' expression`;
  modelled by `pyAwaitNone`.
* External library behaviour that the sources call into is embedded with its
  documented semantics: `bytes.fromhex`, `cbor2.loads` (definite-length CBOR),
  pycardano's fixed-size `ScriptHash` (28 bytes) and bounded `AssetName`
  (at most 32 bytes) constructors, and `str.encode("utf-8")`.
-/

namespace PyHydra

/-- Python exception values, distinguished by class and message.  The class
matters for `except` clauses: `except ValueError` catches `valueError` (and the
`cbor2` decode errors that also subclass `ValueError` are represented separately
as `cborDecodeError`, which `except (ValueError, cbor2.CBORError)` catches);
`assertionError` (pycardano's size asserts) and `deserializeError` (pycardano's
`DeserializeException`) are caught by neither of those clauses. -/
inductive PyExc where
  | valueError (msg : String)
  | typeError (msg : String)
  | assertionError (msg : String)
  | deserializeError (msg : String)
  | cborDecodeError (msg : String)
  | exception (msg : String)
  deriving Repr, DecidableEq

/-- `raise v` for a value `v` that is not an exception instance (in the sources,
`raise parse_error(...)` where `parse_error` returns a `str`). -/
def pyRaiseNonException : PyExc :=
  .typeError "exceptions must derive from BaseException"

/-- `await v` where `v` is `None`: the result of awaiting the return value of a
synchronous function call. -/
def pyAwaitNone : Except PyExc Unit :=
  .error (.typeError "object NoneType can't be used in 'await' expression")

/-- Decidable equality for `Except` results, used to evaluate the embedded
functions inside `decide`. -/
instance {e a : Type} [DecidableEq e] [DecidableEq a] : DecidableEq (Except e a) :=
  fun x y =>
    match x, y with
    | .ok v, .ok w => if h : v = w then isTrue (by rw [h]) else isFalse (by simp [h])
    | .error v, .error w => if h : v = w then isTrue (by rw [h]) else isFalse (by simp [h])
    | .ok _, .error _ => isFalse (by simp)
    | .error _, .ok _ => isFalse (by simp)

/-! ## Ordered dictionaries (Python `dict`) -/

/-- Lookup in an insertion-ordered dictionary (`d[k]` / `d.get(k)`). -/
def dictGet (d : List (String × Int)) (k : String) : Option Int :=
  match d with
  | [] => none
  | (k₁, v) :: rest => if k₁ = k then some v else dictGet rest k

/-- `d.get(k, 0)`. -/
def dictGetD (d : List (String × Int)) (k : String) : Int :=
  (dictGet d k).getD 0

/-- `d[k] = v`: update the binding in place if the key exists, else append. -/
def dictSet (d : List (String × Int)) (k : String) (v : Int) :
    List (String × Int) :=
  match d with
  | [] => [(k, v)]
  | (k₁, v₁) :: rest =>
      if k₁ = k then (k₁, v) :: rest else (k₁, v₁) :: dictSet rest k v

/-! ## `pyhydra/models/assets.py` -/

/-- `HydraAssets = Dict[str, int]` — canonical value mapping, unit → quantity,
as an insertion-ordered dictionary. -/
abbrev HydraAssets := List (String × Int)

/-- An element of the list passed to `hydra_assets`.  The repository both
documents the input as `(policy_id, asset_name, quantity)` triples (and builds
triples in `hydra_assets_from_value`) and iterates it with the two-name
unpacking `for unit, quantity in assets`. -/
inductive AssetEntry where
  | pair (unit : String) (quantity : Int)
  | triple (policyId : String) (assetName : List Nat) (quantity : Int)

/-- Python tuple unpacking `unit, quantity = e`: succeeds only for a 2-tuple;
unpacking a 3-tuple into two targets raises
`ValueError: too many values to unpack (expected 2)`. -/
def tupleUnpack2 (e : AssetEntry) : Except PyExc (String × Int) :=
  match e with
  | .pair u q => .ok (u, q)
  | .triple _ _ _ => .error (.valueError "too many values to unpack (expected 2)")

/-- The `for unit, quantity in assets:` loop body of `hydra_assets`. -/
def hydraAssetsLoop (assets : List AssetEntry) (result : HydraAssets) :
    Except PyExc HydraAssets :=
  match assets with
  | [] => .ok result
  | e :: rest => do
      let (unit, quantity) ← tupleUnpack2 e
      if quantity < 0 then
        .error (.valueError s!"Negative quantity for asset {unit}: {quantity}")
      else
        let unit := if unit = "" then "lovelace" else unit
        hydraAssetsLoop rest (dictSet result unit (dictGetD result unit + quantity))

/-- `hydra_assets(assets)`: starts from `{"lovelace": 0}`, sums quantities per
unit (empty unit collapsing to `"lovelace"`), rejects negative quantities, and
finally drops zero-valued entries. -/
def hydra_assets (assets : List AssetEntry) : Except PyExc HydraAssets :=
  (hydraAssetsLoop assets [("lovelace", 0)]).map (List.filter (fun kv => kv.2 ≠ 0))

/-! ## Bytes, hex and the pycardano constructors used by `assets.py` -/

/-- A Python `bytes` value, one `Nat` (< 256) per byte. -/
abbrev PyBytes := List Nat

/-- Value of a hexadecimal digit character, if any. -/
def hexDigit (c : Char) : Option Nat :=
  if '0' ≤ c ∧ c ≤ '9' then some (c.toNat - '0'.toNat)
  else if 'a' ≤ c ∧ c ≤ 'f' then some (c.toNat - 'a'.toNat + 10)
  else if 'A' ≤ c ∧ c ≤ 'F' then some (c.toNat - 'A'.toNat + 10)
  else none

/-- Hex-pair scanner behind `bytes.fromhex`: pairs of hex digits with ASCII
spaces allowed between byte pairs; `none` on any other shape. -/
def fromhexAux (cs : List Char) : Option PyBytes :=
  match cs with
  | [] => some []
  | ' ' :: rest => fromhexAux rest
  | c₁ :: c₂ :: rest =>
      match hexDigit c₁, hexDigit c₂ with
      | some h, some l => (fromhexAux rest).map (fun bs => (16 * h + l) :: bs)
      | _, _ => none
  | [_] => none

/-- `bytes.fromhex(s)`: a malformed hex string raises `ValueError`. -/
def bytesFromhex (s : String) : Except PyExc PyBytes :=
  match fromhexAux s.toList with
  | some bs => .ok bs
  | none => .error (.valueError "non-hexadecimal number found in fromhex() arg")

/-- Python string slicing `s[:n]` (characters). -/
def strTake (s : String) (n : Nat) : String :=
  String.mk (s.toList.take n)

/-- Python string slicing `s[n:]` (characters). -/
def strDrop (s : String) (n : Nat) : String :=
  String.mk (s.toList.drop n)

/-- UTF-8 encoding of one character. -/
def utf8Bytes (c : Char) : List Nat :=
  let n := c.toNat
  if n < 128 then [n]
  else if n < 2048 then [192 + n / 64, 128 + n % 64]
  else if n < 65536 then [224 + n / 4096, 128 + (n / 64) % 64, 128 + n % 64]
  else [240 + n / 262144, 128 + (n / 4096) % 64, 128 + (n / 64) % 64, 128 + n % 64]

/-- `s.encode("utf-8")`. -/
def strEncodeUtf8 (s : String) : PyBytes :=
  s.toList.flatMap utf8Bytes

/-- Hex digit character for a value < 16 (lowercase, as `bytes.hex()`). -/
def hexChar (n : Nat) : Char :=
  if n < 10 then Char.ofNat ('0'.toNat + n) else Char.ofNat ('a'.toNat + n - 10)

/-- `bytes.hex()` — also `str(ScriptHash)`, which pycardano renders as the
payload's lowercase hex. -/
def bytesToHex (b : PyBytes) : String :=
  String.mk (b.flatMap (fun x => [hexChar (x / 16), hexChar (x % 16)]))

/-- pycardano `ScriptHash(payload)`: the payload must be exactly 28 bytes
(`ConstrainedBytes` size check). -/
def scriptHashMk (payload : PyBytes) : Except PyExc PyBytes :=
  if payload.length = 28 then .ok payload
  else .error (.assertionError s!"Invalid byte size: {payload.length} for ScriptHash")

/-- pycardano `AssetName(payload)`: at most 32 bytes. -/
def assetNameMk (payload : PyBytes) : Except PyExc PyBytes :=
  if payload.length ≤ 32 then .ok payload
  else .error (.assertionError s!"Invalid byte size: {payload.length} for AssetName")

/-- A pycardano `MultiAsset`: policy-hash bytes → (asset-name bytes → quantity),
with both levels insertion-ordered. -/
abbrev MultiAssetB := List (PyBytes × List (PyBytes × Int))

/-- Lookup in the inner asset dictionary. -/
def assetGet (a : List (PyBytes × Int)) (k : PyBytes) : Option Int :=
  match a with
  | [] => none
  | (k₁, v) :: rest => if k₁ = k then some v else assetGet rest k

/-- `asset[name] = quantity` on the inner dictionary. -/
def assetSet (a : List (PyBytes × Int)) (k : PyBytes) (v : Int) :
    List (PyBytes × Int) :=
  match a with
  | [] => [(k, v)]
  | (k₁, v₁) :: rest =>
      if k₁ = k then (k₁, v) :: rest else (k₁, v₁) :: assetSet rest k v

/-- `policy_hash in multi_asset`. -/
def maMem (ma : MultiAssetB) (k : PyBytes) : Bool :=
  match ma with
  | [] => false
  | (k₁, _) :: rest => k₁ = k ∨ maMem rest k

/-- `multi_asset[policy_hash][asset_name] = quantity`, inserting an empty inner
dictionary first when the policy hash is absent (as both `to_assets` and
`hydra_assets_to_value` do). -/
def maSet (ma : MultiAssetB) (k : PyBytes) (an : PyBytes) (v : Int) :
    MultiAssetB :=
  match ma with
  | [] => [(k, [(an, v)])]
  | (k₁, a) :: rest =>
      if k₁ = k then (k₁, assetSet a an v) :: rest else (k₁, a) :: maSet rest k an v

/-- Result shape of `to_assets`: the dictionary
`{"coin": int, "multi_asset": {...}}`. -/
structure ToAssetsResult where
  coin : Int
  multi_asset : MultiAssetB
  deriving Repr

/-- The `try` block of `to_assets` for a non-lovelace unit of length at least
56: slice the policy id and asset name (`unit[:56]` / `unit[56:]`) and run the
pycardano constructors. -/
def toAssetsTry (unit : String) : Except PyExc (PyBytes × PyBytes) := do
  let pb ← bytesFromhex (strTake unit 56)
  let policy_hash ← scriptHashMk pb
  let asset_name_obj ← assetNameMk (strEncodeUtf8 (strDrop unit 56))
  .ok (policy_hash, asset_name_obj)

/-- The `for unit, quantity in hydra_assets.items()` loop of `to_assets`.  The
`try` block around the pycardano constructors re-raises any `ValueError` as
`ValueError(f"Invalid policy_id in unit: {unit}")`; exceptions of other classes
propagate unchanged. -/
def toAssetsLoop (entries : HydraAssets) (coin : Int) (ma : MultiAssetB) :
    Except PyExc ToAssetsResult :=
  match entries with
  | [] => .ok ⟨coin, ma⟩
  | (unit, quantity) :: rest =>
      if quantity = 0 then toAssetsLoop rest coin ma
      else if quantity < 0 then
        .error (.valueError s!"Negative quantity for unit {unit}: {quantity}")
      else if unit = "lovelace" then toAssetsLoop rest quantity ma
      else if unit.length < 56 then
        .error (.valueError s!"Invalid unit length: {unit}")
      else
        match toAssetsTry unit with
        | .ok (ph, an) => toAssetsLoop rest coin (maSet ma ph an quantity)
        | .error (.valueError _) =>
            .error (.valueError s!"Invalid policy_id in unit: {unit}")
        | .error e => .error e

/-- `to_assets(hydra_assets)`: the canonical-value → ledger-value conversion,
producing `{"coin": ..., "multi_asset": ...}`. -/
def to_assets (entries : HydraAssets) : Except PyExc ToAssetsResult :=
  toAssetsLoop entries 0 []

/-- pycardano `Value(coin=..., multi_asset=...)`. -/
structure Value where
  coin : Int
  multi_asset : MultiAssetB
  deriving Repr, DecidableEq

/-- The loop of `hydra_assets_to_value`.  Note that for a non-`"lovelace"` unit
shorter than 56 characters the policy slice is the empty string, so the code
constructs `ScriptHash(b"")`, whose size check fails; that failure is not a
`ValueError`, hence not converted by the `except ValueError` clause. -/
def hydraAssetsToValueLoop (entries : HydraAssets) (lovelace : Int)
    (ma : MultiAssetB) : Except PyExc Value :=
  match entries with
  | [] => .ok ⟨lovelace, ma⟩
  | (unit, quantity) :: rest =>
      if unit = "lovelace" then hydraAssetsToValueLoop rest quantity ma
      else
        let policy_id := if 56 ≤ unit.length then strTake unit 56 else ""
        let asset_name := if 56 < unit.length then strDrop unit 56 else ""
        let tryBody : Except PyExc (PyBytes × PyBytes) := do
          let policy_hash ←
            if policy_id ≠ "" then do
              let pb ← bytesFromhex policy_id
              scriptHashMk pb
            else scriptHashMk []
          let an ← assetNameMk (strEncodeUtf8 asset_name)
          .ok (policy_hash, an)
        match tryBody with
        | .ok (ph, an) => hydraAssetsToValueLoop rest lovelace (maSet ma ph an quantity)
        | .error (.valueError _) =>
            .error (.valueError s!"Invalid policy_id in unit: {unit}")
        | .error e => .error e

/-- `hydra_assets_to_value(hydra_assets)`: canonical value → pycardano `Value`. -/
def hydra_assets_to_value (entries : HydraAssets) : Except PyExc Value :=
  hydraAssetsToValueLoop entries 0 []

/-- `hydra_assets_from_value(value)`: builds the `(str(policy_id), asset_name,
quantity)` triple list (plus a leading `("", AssetName(b""), coin)` triple when
`coin > 0`) and passes it to `hydra_assets`.  Because `hydra_assets` unpacks
each element into two names, any nonempty triple list raises. -/
def hydra_assets_from_value (value : Value) : Except PyExc HydraAssets :=
  let assets : List AssetEntry :=
    (if 0 < value.coin then [AssetEntry.triple "" [] value.coin] else []) ++
      value.multi_asset.flatMap (fun pa =>
        pa.2.map (fun aq => AssetEntry.triple (bytesToHex pa.1) aq.1 aq.2))
  hydra_assets assets

/-! ## CBOR (`cbor2.loads`) -/

/-- Decoded CBOR data items as `cbor2` returns them: Python ints, `bytes`,
`str` (kept as raw utf-8 bytes), lists, dicts, `CBORTag`, and simple values
(20/21 decode to `False`/`True`, 22 to `None`). -/
inductive CborVal where
  | int (n : Int)
  | bytes (b : List Nat)
  | text (b : List Nat)
  | arr (xs : List CborVal)
  | map (kvs : List (CborVal × CborVal))
  | tag (t : Nat) (v : CborVal)
  | simple (n : Nat)

/-- Big-endian accumulation of `n` bytes. -/
def beBytes (acc : Nat) (n : Nat) (b : List Nat) :
    Except String (Nat × List Nat) :=
  match n with
  | 0 => .ok (acc, b)
  | n + 1 =>
      match b with
      | [] => .error "premature end of stream"
      | x :: rest => beBytes (acc * 256 + x) n rest

/-- Decode the argument of a CBOR head byte with additional-information `ai`.
Indefinite lengths (`ai = 31`) and reserved values are decode errors in this
model (only definite-length encodings are embedded). -/
def readArg (ai : Nat) (b : List Nat) : Except String (Nat × List Nat) :=
  if ai < 24 then .ok (ai, b)
  else if ai = 24 then beBytes 0 1 b
  else if ai = 25 then beBytes 0 2 b
  else if ai = 26 then beBytes 0 4 b
  else if ai = 27 then beBytes 0 8 b
  else .error "unsupported additional information"

/-- Take `n` bytes from the stream. -/
def takeBytes (n : Nat) (b : List Nat) : Except String (List Nat × List Nat) :=
  match n, b with
  | 0, b => .ok ([], b)
  | _ + 1, [] => .error "premature end of stream"
  | n + 1, x :: rest => (takeBytes n rest).map (fun p => (x :: p.1, p.2))

/-- Group a flat list of `2n` decoded items into map entries. -/
def pairUp (xs : List CborVal) : List (CborVal × CborVal) :=
  match xs with
  | k :: v :: rest => (k, v) :: pairUp rest
  | _ => []

/-- Fuel-indexed decoder for `n` consecutive definite-length CBOR items,
structurally recursive on the fuel, which every recursive call decreases;
since each decoded item consumes at least one byte of input, fuel
`length + 1` never runs out.  Failures are reported as messages; `cborLoads`
turns them into the `cbor2.CBORError` decode exceptions (which
`except (ValueError, cbor2.CBORError)` catches). -/
def cborDecodeMany (fuel : Nat) (n : Nat) (b : List Nat) :
    Except String (List CborVal × List Nat) :=
  match fuel with
  | 0 => .error "premature end of stream"
  | fuel + 1 =>
      match n with
      | 0 => .ok ([], b)
      | n + 1 =>
          match b with
          | [] => .error "premature end of stream"
          | hd :: rest => do
              let mt := hd / 32
              let ai := hd % 32
              let (v, r) ←
                if mt = 0 then
                  (readArg ai rest).map (fun p => (CborVal.int (Int.ofNat p.1), p.2))
                else if mt = 1 then
                  (readArg ai rest).map (fun p => (CborVal.int (-1 - Int.ofNat p.1), p.2))
                else if mt = 2 then do
                  let (k, r) ← readArg ai rest
                  let (bs, r) ← takeBytes k r
                  Except.ok (CborVal.bytes bs, r)
                else if mt = 3 then do
                  let (k, r) ← readArg ai rest
                  let (bs, r) ← takeBytes k r
                  Except.ok (CborVal.text bs, r)
                else if mt = 4 then do
                  let (k, r) ← readArg ai rest
                  let (xs, r) ← cborDecodeMany fuel k r
                  Except.ok (CborVal.arr xs, r)
                else if mt = 5 then do
                  let (k, r) ← readArg ai rest
                  let (xs, r) ← cborDecodeMany fuel (2 * k) r
                  Except.ok (CborVal.map (pairUp xs), r)
                else if mt = 6 then do
                  let (t, r) ← readArg ai rest
                  let (vs, r) ← cborDecodeMany fuel 1 r
                  match vs with
                  | [v] => Except.ok (CborVal.tag t v, r)
                  | _ => Except.error "premature end of stream"
                else
                  if ai < 24 then Except.ok (CborVal.simple ai, rest)
                  else if ai = 24 then
                    match rest with
                    | [] => Except.error "premature end of stream"
                    | x :: r => Except.ok (CborVal.simple x, r)
                  else Except.error "unsupported float or simple value"
              let (vs, r₂) ← cborDecodeMany fuel n r
              .ok (v :: vs, r₂)

/-- `cbor2.loads(bytes)`: decode one item, ignoring trailing data; every decode
failure raises an exception of the `cbor2.CBORError` decode family. -/
def cborLoads (b : List Nat) : Except PyExc CborVal :=
  match cborDecodeMany (b.length + 1) 1 b with
  | .ok ([v], _) => .ok v
  | .ok (_, _) => .error (.cborDecodeError "premature end of stream")
  | .error msg => .error (.cborDecodeError msg)

/-- Python `x == n` for a decoded CBOR item and an int literal: true for the
int itself and for the booleans `False == 0` / `True == 1`. -/
def cborEqInt (v : CborVal) (n : Int) : Bool :=
  match v with
  | .int m => m = n
  | .simple 20 => n = 0
  | .simple 21 => n = 1
  | _ => false

/-! ## `pyhydra/models/hydra_reference_script.py` -/

/-- pycardano `NativeScript` instances, restricted to the leaf constructors the
model embeds (`ScriptPubkey [0, keyhash]`, `InvalidBefore [4, slot]`,
`InvalidHereAfter [5, slot]`). -/
inductive NativeScriptM where
  | scriptPubkey (keyHash : List Nat)
  | invalidBefore (slot : Int)
  | invalidHereAfter (slot : Int)
  deriving Repr, DecidableEq

/-- pycardano `NativeScript.from_primitive`: deserializes a `[tag, ...]` list;
failures raise `DeserializeException`, which is not a `ValueError` and is not
caught by `except (ValueError, cbor2.CBORError)`.  Nested script combinators
(`ScriptAll`/`ScriptAny`/`ScriptNofK`) are outside this model and are mapped to
the same failure. -/
def nativeScriptFromPrimitive (v : CborVal) : Except PyExc NativeScriptM :=
  match v with
  | .arr [.int 0, .bytes kh] =>
      if kh.length = 28 then .ok (.scriptPubkey kh)
      else .error (.deserializeError "Invalid byte size for VerificationKeyHash")
  | .arr [.int 4, .int s] => .ok (.invalidBefore s)
  | .arr [.int 5, .int s] => .ok (.invalidHereAfter s)
  | _ => .error (.deserializeError "Cannot deserialize NativeScript")

/-- pycardano `PlutusScript.from_version(version, content)`: the content is fed
to the `bytes` subclass constructor.  `bytes` input is taken as-is, a
non-negative int `n` yields `n` zero bytes, a negative int raises `ValueError`,
a list of ints in range yields those bytes, and text or other shapes raise
`TypeError`. -/
def plutusScriptFromVersion (_version : Nat) (content : CborVal) :
    Except PyExc (List Nat) :=
  match content with
  | .bytes b => .ok b
  | .int n => if 0 ≤ n then .ok (List.replicate n.toNat 0)
      else .error (.valueError "negative count")
  | .arr xs =>
      match xs.mapM (fun x => match x with
        | .int m => if 0 ≤ m ∧ m < 256 then some m.toNat else none
        | _ => none) with
      | some bs => .ok bs
      | none => .error (.valueError "bytes must be in range(0, 256)")
  | _ => .error (.typeError "cannot convert to a bytes object")

/-- The `script_instance` field of `HydraScriptInfomation`. -/
inductive ScriptInstance where
  | native (s : NativeScriptM)
  | plutus (version : Int) (script : List Nat)
  deriving Repr, DecidableEq

/-- The dataclass `HydraScriptInfomation`. -/
structure HydraScriptInfomation where
  script_instance : Option ScriptInstance
  script_type : String
  script_language : Option String
  deriving Repr, DecidableEq

/-- The default classification (`Unknown`, no instance, no language). -/
def unknownScriptInfo : HydraScriptInfomation :=
  ⟨none, "Unknown", none⟩

/-- Classification of the decoded inner `[script_type_id, script_content]`
structure: type id 0 builds a `NativeScript` (`SimpleScript`), ids 1, 2, 3
build the Plutus script of that literal version, anything else (including a
payload that is not a 2-element list) keeps the `Unknown` defaults. -/
def classifyScriptData (script_data : CborVal) :
    Except PyExc HydraScriptInfomation :=
  match script_data with
  | .arr [script_type_id, script_content] =>
      if cborEqInt script_type_id 0 then
        match nativeScriptFromPrimitive script_content with
        | .error e => .error e
        | .ok ns =>
            .ok ⟨some (.native ns), "SimpleScript",
              some "NativeScriptLanguage SimpleScript"⟩
      else if cborEqInt script_type_id 1 ∨ cborEqInt script_type_id 2 ∨
          cborEqInt script_type_id 3 then
        let ver : Int :=
          match script_type_id with
          | .int n => n
          | .simple _ => 1
          | _ => 0
        match plutusScriptFromVersion ver.toNat script_content with
        | .error e => .error e
        | .ok ps =>
            .ok ⟨some (.plutus ver ps), s!"PlutusScriptV{ver}",
              some s!"PlutusScriptLanguage PlutusScriptV{ver}"⟩
      else .ok unknownScriptInfo
  | _ => .ok unknownScriptInfo

/-- The `script_data = cbor2.loads(cbor_data.value)` step: a tag-24 payload
that is not a byte string raises `TypeError` (as `BytesIO` does); otherwise the
decoded item is classified. -/
def classifyPayload (payload : CborVal) : Except PyExc HydraScriptInfomation :=
  match payload with
  | .bytes inner =>
      match cborLoads inner with
      | .error e => .error e
      | .ok script_data => classifyScriptData script_data
  | _ => .error (.typeError "a bytes-like object is required")

/-- The `try` block of `get_reference_script_info` for a non-empty hex string:
hex-decode, CBOR-decode, and if the item is a tag-24 envelope
(`isinstance(cbor_data, CBORTag) and cbor_data.tag == 24`) classify its
payload. -/
def refScriptTryBlock (script_ref : String) :
    Except PyExc HydraScriptInfomation :=
  match bytesFromhex script_ref with
  | .error e => .error e
  | .ok cbor_bytes =>
  match cborLoads cbor_bytes with
  | .error e => .error e
  | .ok cbor_data =>
  match cbor_data with
  | .tag tagNum payload =>
      if tagNum = 24 then classifyPayload payload
      else .ok unknownScriptInfo
  | _ => .ok unknownScriptInfo

/-- Whether `except (ValueError, cbor2.CBORError)` catches the exception. -/
def caughtByRefScriptHandler (e : PyExc) : Bool :=
  match e with
  | .valueError _ => true
  | .cborDecodeError _ => true
  | _ => false

/-- `get_reference_script_info(script_ref)`: `None` and the empty string are
falsy and skip the `try` block entirely; caught exceptions degrade to the
`Unknown` defaults; exceptions of other classes propagate. -/
def get_reference_script_info (script_ref : Option String) :
    Except PyExc HydraScriptInfomation :=
  match script_ref with
  | none => .ok unknownScriptInfo
  | some s =>
      if s = "" then .ok unknownScriptInfo
      else
        match refScriptTryBlock s with
        | .ok info => .ok info
        | .error e =>
            if caughtByRefScriptHandler e then .ok unknownScriptInfo
            else .error e

/-- The dataclass `HydraReferenceScript` (`script` is the dictionary
`cborHex`/`description`/`type`). -/
structure HydraReferenceScript where
  script_language : String
  cborHex : String
  description : String
  type : String
  deriving Repr, DecidableEq

/-- `hydra_reference_script(script_reference)`. -/
def hydra_reference_script (script_reference : Option String) :
    Except PyExc (Option HydraReferenceScript) := do
  let info ← get_reference_script_info script_reference
  match script_reference, info.script_instance, info.script_language with
  | some s, some _, some lang =>
      if s = "" then .ok none
      else .ok (some ⟨lang, s, "", info.script_type⟩)
  | _, _, _ => .ok none

/-! ## JSON messages -/

/-- Parsed inbound JSON messages (the argument of `_on_message` handlers). -/
inductive JVal where
  | str (s : String)
  | int (n : Int)
  | bool (b : Bool)
  | null
  | arr (xs : List JVal)
  | obj (fields : List (String × JVal))

/-- Lookup in a JSON object's field list. -/
def jlookup (fields : List (String × JVal)) (k : String) : Option JVal :=
  match fields with
  | [] => none
  | (k₁, v) :: rest => if k₁ = k then some v else jlookup rest k

/-- `message.get(k)` for an object message. -/
def jget (m : JVal) (k : String) : Option JVal :=
  match m with
  | .obj fields => jlookup fields k
  | _ => none

/-- `message.get(k, {})`: missing keys default to the empty dictionary. -/
def jgetD (m : JVal) (k : String) : JVal :=
  (jget m k).getD (.obj [])

/-- Whether an optional JSON value is the given string (Python `== "..."`). -/
def jIsStr (v : Option JVal) (s : String) : Bool :=
  match v with
  | some (.str t) => t = s
  | _ => false

/-! ## `pyhydra/types/hydra_status.py` -/

/-- The `HydraStatus` enum. -/
inductive HydraStatus where
  | IDLE
  | DISCONNECTED
  | CONNECTING
  | CONNECTED
  | INITIALIZING
  | OPEN
  | CLOSED
  | FANOUT_POSSIBLE
  | FINAL
  deriving Repr, DecidableEq

/-- `hydra_status(value)`: an explicit `headStatus == "Open"` field wins,
otherwise the `tag` field is matched against the five head-lifecycle tags. -/
def hydra_status (value : JVal) : Option HydraStatus :=
  if jIsStr (jget value "headStatus") "Open" then some .OPEN
  else
    match jget value "tag" with
    | some (.str tag) =>
        if tag = "HeadIsInitializing" then some .INITIALIZING
        else if tag = "HeadIsOpen" then some .OPEN
        else if tag = "HeadIsClosed" then some .CLOSED
        else if tag = "ReadyToFanout" then some .FANOUT_POSSIBLE
        else if tag = "HeadIsFinalized" then some .FINAL
        else none
    | _ => none

/-! ## `pyhydra/connections/hydra_connection.py` -/

/-- The transport socket (`self._websocket.sock`). -/
structure Sock where
  connected : Bool

/-- A `WebSocketApp` instance. -/
structure WebSocketApp where
  sock : Option Sock

/-- Observable side effects of connection operations: events emitted on the
`pyee` emitter and transport actions. -/
inductive ConnEvent where
  | emitStatusChange (s : HydraStatus)
  | emitMessage (m : JVal)
  | closeTransport (code : Nat)
  | openTransport

/-- Mutable state of a `HydraConnection`. -/
structure ConnState where
  status : HydraStatus
  connected : Bool
  websocket : Option WebSocketApp

/-- `self._websocket and self._websocket.sock and self._websocket.sock.connected`. -/
def wsOpen (s : ConnState) : Bool :=
  match s.websocket with
  | some ws =>
      match ws.sock with
      | some sk => sk.connected
      | none => false
  | none => false

/-- `HydraConnection.connect()`: builds a fresh `WebSocketApp` (its socket not
yet open), sets the status to `CONNECTING`, and starts `run_forever` on a new
daemon thread.  There is no status guard at this layer. -/
def connection_connect (s : ConnState) : ConnState × List ConnEvent :=
  ({ s with websocket := some ⟨none⟩, status := .CONNECTING },
    [.openTransport])

/-- `HydraConnection.disconnect()`: a no-op from `IDLE`; otherwise closes the
socket with code 1007 when it is open, sets the status to `IDLE`, clears the
connected flag, and emits one `onstatuschange` event (carrying `IDLE`). -/
def disconnect (s : ConnState) : ConnState × List ConnEvent :=
  if s.status = .IDLE then (s, [])
  else
    ({ s with status := .IDLE, connected := false },
      (if wsOpen s then [ConnEvent.closeTransport 1007] else []) ++
        [ConnEvent.emitStatusChange .IDLE])

/-- `HydraConnection.process_status(message)`: update the status and emit one
`onstatuschange` event exactly when `hydra_status` extracts a status. -/
def process_status (s : ConnState) (message : JVal) : ConnState × List ConnEvent :=
  match hydra_status message with
  | some st => ({ s with status := st }, [.emitStatusChange st])
  | none => (s, [])

/-- `HydraConnection._on_close(...)`: sets `DISCONNECTED` and emits one
status-change event. -/
def on_close (s : ConnState) : ConnState × List ConnEvent :=
  ({ s with status := .DISCONNECTED, connected := false },
    [.emitStatusChange .DISCONNECTED])

/-- Result of `HydraConnection.send`: either the payload was delivered on the
`t`-th one-second poll (`t = 0` is the immediate attempt), or the 5-second
window was exhausted and the failure was printed.  The function returns in both
cases; no exception is raised on failure. -/
inductive SendResult where
  | sent (t : Nat)
  | failedLogged
  deriving Repr, DecidableEq

/-- The `while not send_success and (time.time() - start_time) < 5` retry loop:
`ready t` is the transport's readiness `t` seconds after `send` was entered,
and each failed attempt is followed by `time.sleep(1)`. -/
def sendLoop (ready : Nat → Bool) (t : Nat) : SendResult :=
  if _h : t < 5 then
    if ready t then .sent t else sendLoop ready (t + 1)
  else .failedLogged
  termination_by 5 - t

/-- `HydraConnection.send(data)`: an immediate attempt, then the bounded retry
loop. -/
def send (ready : Nat → Bool) : SendResult :=
  if ready 0 then .sent 0 else sendLoop ready 0

/-! ## `pyhydra/providers/hydra_provider.py` -/

/-- Mutable state of a `HydraProvider`: its own `_status` flag (set to
`DISCONNECTED` in `__init__` and to `CONNECTED` by `connect`) plus the owned
connection. -/
structure ProviderState where
  status : HydraStatus
  conn : ConnState

/-- `HydraProvider.connect()`: a no-op unless the provider's status is
`DISCONNECTED`; otherwise delegates to `HydraConnection.connect` and records
`CONNECTED`. -/
def provider_connect (s : ProviderState) : ProviderState × List ConnEvent :=
  if s.status ≠ HydraStatus.DISCONNECTED then (s, [])
  else
    let (c, evs) := connection_connect s.conn
    ({ status := .CONNECTED, conn := c }, evs)

/-! ## `parse_error`, HTTP helpers and transaction submission -/

/-- `str(x)` for the values `parse_error` receives in the modelled paths: an
exception renders as its message, a string as itself. -/
def pyStrOfExc (e : PyExc) : String :=
  match e with
  | .valueError m => m
  | .typeError m => m
  | .assertionError m => m
  | .deserializeError m => m
  | .cborDecodeError m => m
  | .exception m => m

/-- `json.dumps` of a Python string: quote and escape. -/
def jsonDumpsStr (s : String) : String :=
  "\"" ++ String.join (s.toList.map (fun c =>
    if c = '"' then "\\\"" else if c = '\\' then "\\\\" else String.mk [c])) ++ "\""

/-- Arguments `parse_error` is actually given by the sources: a decoded JSON
response body (`parse_error(response.json())`) or a caught exception
(`parse_error(error)`).  Neither is a `requests.RequestException`, so the
response/request branches of `parse_error` that would attach the body, headers
and status code are unreachable from these call sites. -/
inductive ParseErrorArg where
  | jsonBody (v : JVal)
  | caught (e : PyExc)

/-- `str(x)` of a `parse_error` argument.  Python's `str` of a decoded JSON
dict is its `repr`; only the fact that the result is some string matters to the
claims, so the rendering of non-string JSON is kept abstract as `<json>`. -/
def parseErrorStr (arg : ParseErrorArg) : String :=
  match arg with
  | .jsonBody (.str s) => s
  | .jsonBody _ => "<json>"
  | .caught e => pyStrOfExc e

/-- `parse_error(error)` for a non-`RequestException` argument:
`json.dumps(str(error))`, a `str`. -/
def parse_error (arg : ParseErrorArg) : String :=
  jsonDumpsStr (parseErrorStr arg)

/-- `raise parse_error(x)`: `parse_error` returns a `str`, and raising a `str`
raises `TypeError: exceptions must derive from BaseException`. -/
def raiseParseError (_arg : ParseErrorArg) : PyExc :=
  pyRaiseNonException

/-- An HTTP response as seen by the `get`/`post` helpers: its status code, the
decoded JSON body, and its headers. -/
structure HttpResponse where
  status_code : Nat
  jsonBody : JVal
  headers : List (String × String)

/-- `HydraProvider.get(url)` applied to the response the session returns: 200
and 202 succeed with the decoded body; any other status executes
`raise parse_error(response.json())`, whose `TypeError` is then caught by the
surrounding `except Exception` and re-raised via another
`raise parse_error(error)`. -/
def provider_get (response : HttpResponse) : Except PyExc JVal :=
  let tryBody : Except PyExc JVal :=
    if response.status_code = 200 ∨ response.status_code = 202 then
      .ok response.jsonBody
    else .error (raiseParseError (.jsonBody response.jsonBody))
  match tryBody with
  | .ok v => .ok v
  | .error e => .error (raiseParseError (.caught e))

/-- `HydraProvider.post(url, payload, headers)`: identical response handling. -/
def provider_post (_payload : JVal) (response : HttpResponse) : Except PyExc JVal :=
  let tryBody : Except PyExc JVal :=
    if response.status_code = 200 ∨ response.status_code = 202 then
      .ok response.jsonBody
    else .error (raiseParseError (.jsonBody response.jsonBody))
  match tryBody with
  | .ok v => .ok v
  | .error e => .error (raiseParseError (.caught e))

/-- The matching test of the `wait_for_tx_response` callback for `TxValid`:
`message.get("tag") == "TxValid" and
message.get("transaction", {}).get("cborHex") == tx`. -/
def matchesTxValid (tx : String) (m : JVal) : Bool :=
  jIsStr (jget m "tag") "TxValid" ∧ jIsStr (jget (jgetD m "transaction") "cborHex") tx

/-- The matching test for `TxInvalid`. -/
def matchesTxInvalid (tx : String) (m : JVal) : Bool :=
  jIsStr (jget m "tag") "TxInvalid" ∧ jIsStr (jget (jgetD m "transaction") "cborHex") tx

/-- Outcome of the future awaited by `wait_for_tx_response` over the sequence
of messages delivered on the `onmessage` channel: the first matching `TxValid`
resolves it with `message["transaction"]["txId"]`, the first matching
`TxInvalid` fails it with `Exception(json.dumps(message["validationError"]))`
(the validation payload is carried abstractly), and without a matching message
the future stays pending (`none`).  A callback invocation that itself raises
(matching `TxValid` without a `txId` field) leaves the future unset. -/
def waiterOutcome (tx : String) (delivered : List JVal) :
    Option (Except PyExc JVal) :=
  match delivered with
  | [] => none
  | m :: rest =>
      if matchesTxValid tx m then
        match jget (jgetD m "transaction") "txId" with
        | some txId => some (.ok txId)
        | none => waiterOutcome tx rest
      else if matchesTxInvalid tx m then
        some (.error (.exception "validationError"))
      else waiterOutcome tx rest

/-- `HydraProvider.new_tx(...)`: builds the `NewTx` payload, calls the
synchronous `HydraConnection.send` (which returns `None`), and then awaits that
`None` — raising `TypeError` before the caller can ever wait for a response. -/
def new_tx (_cbor_hex _type _description : String) : Except PyExc Unit :=
  pyAwaitNone

/-- `HydraProvider.submit_tx(tx)` given the messages the node delivers: the
`try` block runs `new_tx` and then would await `wait_for_tx_response`; any
exception is re-raised through `raise parse_error(error)`.  `none` models a
forever-pending await. -/
def submit_tx (tx : String) (delivered : List JVal) :
    Option (Except PyExc JVal) :=
  let tryBody : Option (Except PyExc JVal) :=
    match new_tx tx "Witnessed Tx ConwayEra" "" with
    | .error e => some (.error e)
    | .ok _ => waiterOutcome tx delivered
  match tryBody with
  | some (.error e) => some (.error (raiseParseError (.caught e)))
  | r => r

/-! ## Theorems -/

/-- A well-formed `TxValid` message carrying the given transaction hex and id. -/
def txValidMsg (tx txId : String) : JVal :=
  .obj [("tag", .str "TxValid"),
    ("transaction", .obj [("cborHex", .str tx), ("txId", .str txId)])]

/-- A well-formed `TxInvalid` message for the given transaction hex. -/
def txInvalidMsg (tx : String) : JVal :=
  .obj [("tag", .str "TxInvalid"),
    ("transaction", .obj [("cborHex", .str tx)]),
    ("validationError", .obj [("reason", .str "bad")])]

/-- C1: the correlation callback of `wait_for_tx_response` does match by tag
and exact `cborHex` equality — but `submit_tx` never reaches it: `new_tx`
awaits the `None` returned by the synchronous `HydraConnection.send`, the
resulting `TypeError` is caught by `submit_tx`'s handler, and
`raise parse_error(error)` then raises a `str`, so every call fails with
`TypeError: exceptions must derive from BaseException` instead of resolving
with the transaction id, even when a matching `TxValid` is delivered. -/
theorem submit_tx_await_none_bug :
    waiterOutcome "abcd" [txValidMsg "abcd" "tid1"] = some (.ok (.str "tid1"))
    ∧ waiterOutcome "abcd" [txValidMsg "eeee" "tid2"] = none
    ∧ waiterOutcome "abcd" [txInvalidMsg "ffff", txValidMsg "abcd" "tid1"] =
        some (.ok (.str "tid1"))
    ∧ waiterOutcome "abcd" [txInvalidMsg "abcd"] =
        some (.error (.exception "validationError"))
    ∧ new_tx "abcd" "Witnessed Tx ConwayEra" "" =
        .error (.typeError "object NoneType can't be used in 'await' expression")
    ∧ submit_tx "abcd" [txValidMsg "abcd" "tid1"] =
        some (.error (.typeError "exceptions must derive from BaseException")) :=
  ⟨rfl, rfl, rfl, rfl, rfl, rfl⟩

/-- The 56-hex-character policy id consisting of zeros. -/
def policy56 : String :=
  String.mk (List.replicate 56 '0')

/-- The pycardano `Value` holding one unit of the asset with policy `policy56`
and empty asset name. -/
def valueOneAsset : Value :=
  ⟨0, [(List.replicate 28 0, [([], 1)])]⟩

set_option maxRecDepth 8192 in
/-- C2: the conversion round-trip crashes on every nonempty value.
`hydra_assets_to_value` maps the canonical mapping `{policy56: 1}` to a ledger
`Value`, but `hydra_assets_from_value` of that value (and of any value with
positive coin) raises `ValueError: too many values to unpack (expected 2)`:
it passes `(policy_id, asset_name, quantity)` triples to `hydra_assets`, whose
loop unpacks each element into exactly two names. -/
theorem value_roundtrip_unpack_bug :
    hydra_assets_to_value [(policy56, 1)] = .ok valueOneAsset
    ∧ hydra_assets_from_value valueOneAsset =
        .error (.valueError "too many values to unpack (expected 2)")
    ∧ hydra_assets_from_value ⟨5, []⟩ =
        .error (.valueError "too many values to unpack (expected 2)")
    ∧ hydra_assets_from_value ⟨0, []⟩ = .ok [] :=
  ⟨by decide, rfl, rfl, rfl⟩

/-- A non-2xx response with a JSON body and headers. -/
def errorResponse : HttpResponse :=
  ⟨500, .obj [("error", .str "boom")], [("content-type", "application/json")]⟩

/-- C9: 200 and 202 succeed with the decoded body, but a non-2xx response does
not produce an error carrying the body, headers and status code:
`raise parse_error(response.json())` raises the `str` returned by
`parse_error`, which raises `TypeError: exceptions must derive from
BaseException`; the `except Exception` handler re-raises through the same
string-raising pattern, so the caller sees a bare `TypeError` carrying none of
the response data. -/
theorem http_helpers_raise_string_bug :
    provider_get ⟨200, .str "body", []⟩ = .ok (.str "body")
    ∧ provider_get ⟨202, .str "body", []⟩ = .ok (.str "body")
    ∧ provider_get errorResponse =
        .error (.typeError "exceptions must derive from BaseException")
    ∧ provider_post (.obj []) errorResponse =
        .error (.typeError "exceptions must derive from BaseException") :=
  ⟨rfl, rfl, rfl, rfl⟩

/-- C5 counterexample: the hex string `"d81805"` decodes to a tag-24 envelope
wrapping the integer `5`; the classifier feeds that payload to `cbor2.loads`,
which raises `TypeError` (not caught by `except (ValueError, cbor2.CBORError)`)
— so `get_reference_script_info` does raise on some inputs. -/
theorem ref_script_tag24_int_raises :
    get_reference_script_info (some "d81805") =
      .error (.typeError "a bytes-like object is required") :=
  rfl

/-- A connection state whose transport is open and whose status is CONNECTED. -/
def connectedState : ConnState :=
  ⟨.CONNECTED, true, some ⟨some ⟨true⟩⟩⟩

/-- C6 counterexample: `disconnect` from a non-IDLE state does close the open
transport (code 1007) and publishes exactly one status-change event, but it
sets the status to `IDLE`, not `DISCONNECTED` — the emitted event also carries
`IDLE`. -/
theorem disconnect_sets_idle_not_disconnected :
    (disconnect connectedState).1.status = HydraStatus.IDLE
    ∧ (disconnect connectedState).1.status ≠ HydraStatus.DISCONNECTED
    ∧ (disconnect connectedState).2 =
        [ConnEvent.closeTransport 1007, ConnEvent.emitStatusChange .IDLE] :=
  ⟨rfl, by decide, rfl⟩

/-- Test for the status-change events among a connection's emitted events. -/
def isStatusChangeEvent : ConnEvent → Bool
  | .emitStatusChange _ => true
  | _ => false

/-- C6 (amended): `disconnect()` from `IDLE` changes nothing and publishes no
event; from any other status it closes the transport when it is open (code
1007), sets the status to `IDLE` (not `DISCONNECTED`), clears the connected
flag, and publishes exactly one status-change event (carrying `IDLE`) per
call. -/
theorem disconnect_behavior (s : ConnState) :
    (s.status = HydraStatus.IDLE → disconnect s = (s, []))
    ∧ (s.status ≠ HydraStatus.IDLE →
        (disconnect s).1.status = HydraStatus.IDLE
        ∧ (disconnect s).1.connected = false
        ∧ (disconnect s).2 =
            (if wsOpen s then [ConnEvent.closeTransport 1007] else [])
              ++ [ConnEvent.emitStatusChange HydraStatus.IDLE]
        ∧ (disconnect s).2.countP isStatusChangeEvent = 1) := by
  constructor
  · intro h
    simp [disconnect, h]
  · intro h
    have hd : disconnect s =
        ({ s with status := .IDLE, connected := false },
          (if wsOpen s then [ConnEvent.closeTransport 1007] else []) ++
            [ConnEvent.emitStatusChange .IDLE]) := by
      rw [disconnect, if_neg h]
    rw [hd]
    refine ⟨rfl, rfl, rfl, ?_⟩
    cases wsOpen s <;> simp [isStatusChangeEvent]

/-- Witness for C6's amended theorem at a connected state with an open
transport. -/
theorem disconnect_behavior_witness :
    (disconnect connectedState).1.status = HydraStatus.IDLE
    ∧ (disconnect connectedState).1.connected = false
    ∧ (disconnect connectedState).2 =
        (if wsOpen connectedState then [ConnEvent.closeTransport 1007] else [])
          ++ [ConnEvent.emitStatusChange HydraStatus.IDLE]
    ∧ (disconnect connectedState).2.countP isStatusChangeEvent = 1 :=
  (disconnect_behavior connectedState).2 (by decide)

/-- A provider that already went through `connect()` but whose connection holds
no transport object: the no-op decision is made on the status alone. -/
def connectedProvider : ProviderState :=
  ⟨.CONNECTED, ⟨.CONNECTED, true, none⟩⟩

/-- A freshly-initialized provider (`_status = DISCONNECTED`). -/
def freshProvider : ProviderState :=
  ⟨.DISCONNECTED, ⟨.IDLE, false, none⟩⟩

/-- C7: `HydraProvider.connect()` is a no-op exactly when the provider's status
differs from `DISCONNECTED` — the decision inspects only the status field
(the right-hand side of the equivalence does not mention the transport), so a
state with no transport object but `CONNECTED` status is still a no-op; and
after a successful `connect()` (which sets `CONNECTED`), a second `connect()`
changes no state and opens no new transport. -/
theorem provider_connect_status_guard (s : ProviderState) :
    (provider_connect s = (s, []) ↔ s.status ≠ HydraStatus.DISCONNECTED)
    ∧ (s.status = HydraStatus.DISCONNECTED →
        provider_connect (provider_connect s).1 = ((provider_connect s).1, [])) := by
  constructor
  · constructor
    · intro h hd
      rw [provider_connect, if_neg (fun hne => hne hd)] at h
      have := congrArg Prod.snd h
      simp [connection_connect] at this
    · intro h
      simp [provider_connect, h]
  · intro h
    have h₁ : (provider_connect s).1.status = HydraStatus.CONNECTED := by
      simp [provider_connect, h, connection_connect]
    rw [provider_connect, if_pos (by rw [h₁]; exact fun hne => nomatch hne)]

/-- Witness for C7: a provider already `CONNECTED` (even with no transport
object) is left untouched, and a second `connect()` after a first one is a
no-op. -/
theorem provider_connect_status_guard_witness :
    provider_connect connectedProvider = (connectedProvider, [])
    ∧ provider_connect (provider_connect freshProvider).1 =
        ((provider_connect freshProvider).1, []) :=
  ⟨(provider_connect_status_guard connectedProvider).1.mpr (by decide),
    (provider_connect_status_guard freshProvider).2 rfl⟩

/-- Whether the message's `tag` field is one of the five head-lifecycle tags
recognized by `hydra_status`. -/
def tagIsLifecycle (m : JVal) : Bool :=
  match jget m "tag" with
  | some (.str t) =>
      t = "HeadIsInitializing" ∨ t = "HeadIsOpen" ∨ t = "HeadIsClosed" ∨
        t = "ReadyToFanout" ∨ t = "HeadIsFinalized"
  | _ => false

/-- C10: `headStatus` takes precedence over `tag` — any message whose
`headStatus` field equals `"Open"` is extracted as `OPEN` regardless of its
tag; and when `headStatus` is not `"Open"` and the tag is none of the five
lifecycle tags, no status is extracted and `process_status` neither changes
state nor publishes any event. -/
theorem status_extraction_precedence (m : JVal) (s : ConnState) :
    (jIsStr (jget m "headStatus") "Open" = true →
      hydra_status m = some HydraStatus.OPEN)
    ∧ (jIsStr (jget m "headStatus") "Open" = false → tagIsLifecycle m = false →
        hydra_status m = none ∧ process_status s m = (s, [])) := by
  constructor
  · intro h
    simp [hydra_status, h]
  · intro h ht
    have hn : hydra_status m = none := by
      rw [hydra_status, if_neg (by simp [h])]
      rcases hm : jget m "tag" with _ | v
      · rfl
      · cases v <;> try rfl
        rename_i t
        rw [tagIsLifecycle, hm] at ht
        simp only [decide_eq_false_iff_not] at ht
        push_neg at ht
        obtain ⟨h₁, h₂, h₃, h₄, h₅⟩ := ht
        simp [h₁, h₂, h₃, h₄, h₅]
    exact ⟨hn, by simp [process_status, hn]⟩

/-- Witness for C10: a message tagged `HeadIsClosed` but carrying
`headStatus: "Open"` extracts `OPEN`; a `SnapshotConfirmed` message extracts
nothing and publishes nothing. -/
theorem status_extraction_precedence_witness :
    hydra_status
        (.obj [("headStatus", .str "Open"), ("tag", .str "HeadIsClosed")]) =
      some HydraStatus.OPEN
    ∧ (hydra_status (.obj [("tag", .str "SnapshotConfirmed")]) = none
      ∧ process_status connectedState (.obj [("tag", .str "SnapshotConfirmed")]) =
          (connectedState, [])) :=
  ⟨(status_extraction_precedence _ connectedState).1 rfl,
    (status_extraction_precedence _ connectedState).2 rfl rfl⟩

/-- If the transport never becomes ready inside the window, the retry loop
gives up (and only logs). -/
lemma sendLoop_no_ready (ready : Nat → Bool) :
    ∀ n t, 5 - t ≤ n → (∀ u, u < 5 → ready u = false) →
      sendLoop ready t = .failedLogged := by
  intro n
  induction n with
  | zero =>
      intro t ht _
      rw [sendLoop, dif_neg (by omega)]
  | succ n ih =>
      intro t ht hr
      rw [sendLoop]
      split
      · rename_i hlt
        rw [hr t hlt]
        simpa using ih (t + 1) (by omega) hr
      · rfl

/-- If the transport is ready at some time inside the window at or after the
loop's current time, the loop succeeds at the earliest ready poll. -/
lemma sendLoop_first_ready (ready : Nat → Bool) :
    ∀ n t t', 5 - t ≤ n → t ≤ t' → t' < 5 → ready t' = true →
      ∃ t₀, t ≤ t₀ ∧ t₀ ≤ t' ∧ t₀ < 5 ∧ ready t₀ = true ∧
        sendLoop ready t = .sent t₀ := by
  intro n
  induction n with
  | zero => intro t t' h1 h2 h3 _; omega
  | succ n ih =>
      intro t t' h1 h2 h3 h4
      rw [sendLoop, dif_pos (show t < 5 by omega)]
      cases hrt : ready t with
      | false =>
          have hne : t ≠ t' := by
            intro he
            rw [he, h4] at hrt
            cases hrt
          obtain ⟨t₀, ha, hb, hc, hd, he⟩ :=
            ih (t + 1) t' (by omega) (by omega) h3 h4
          exact ⟨t₀, by omega, hb, hc, hd, by simpa using he⟩
      | true => exact ⟨t, Nat.le_refl t, h2, by omega, hrt, by simp⟩

/-- A successful loop exit happened inside the window, on a ready poll. -/
lemma sendLoop_sent_bounds (ready : Nat → Bool) :
    ∀ n t t₀, 5 - t ≤ n → sendLoop ready t = .sent t₀ →
      t₀ < 5 ∧ ready t₀ = true := by
  intro n
  induction n with
  | zero =>
      intro t t₀ ht h
      rw [sendLoop, dif_neg (by omega)] at h
      cases h
  | succ n ih =>
      intro t t₀ ht h
      rw [sendLoop] at h
      split at h
      · rename_i hlt
        cases hrt : ready t with
        | false =>
            rw [hrt] at h
            exact ih (t + 1) t₀ (by omega) (by simpa using h)
        | true =>
            rw [hrt] at h
            simp at h
            exact ⟨by omega, by rw [← h]; exact hrt⟩
      · cases h

/-- C8: `send` delivers immediately when the transport is open (`ready 0`);
when some poll inside the 5-second window finds the transport ready, it
succeeds at a poll no later than that one; when no poll inside the window
finds it ready, it gives up with a logged failure — `SendResult` has no
exception alternative, so the failure is reported by returning, not raising;
and every success happens strictly inside the 5-second window on a ready
poll. -/
theorem send_bounded_retry (ready : Nat → Bool) :
    (ready 0 = true → send ready = .sent 0)
    ∧ (∀ t, t < 5 → ready t = true →
        ∃ t₀, t₀ ≤ t ∧ t₀ < 5 ∧ ready t₀ = true ∧ send ready = .sent t₀)
    ∧ ((∀ u, u < 5 → ready u = false) → send ready = .failedLogged)
    ∧ (∀ t₀, send ready = .sent t₀ → t₀ < 5 ∧ ready t₀ = true) := by
  refine ⟨?_, ?_, ?_, ?_⟩
  · intro h
    rw [send, if_pos h]
  · intro t ht hr
    rw [send]
    cases hr0 : ready 0 with
    | false =>
        obtain ⟨t₀, _, hb, hc, hd, he⟩ :=
          sendLoop_first_ready ready 5 0 t (by omega) (by omega) ht hr
        exact ⟨t₀, hb, hc, hd, by simpa using he⟩
    | true => exact ⟨0, by omega, by omega, hr0, by simp⟩
  · intro h
    rw [send, if_neg (by rw [h 0 (by omega)]; exact fun he => nomatch he)]
    exact sendLoop_no_ready ready 5 0 (by omega) h
  · intro t₀ h
    rw [send] at h
    cases hr0 : ready 0 with
    | false =>
        rw [hr0] at h
        exact sendLoop_sent_bounds ready 5 0 t₀ (by omega) (by simpa using h)
    | true =>
        rw [hr0] at h
        simp at h
        exact ⟨by omega, by rw [← h]; exact hr0⟩

/-- A transport that becomes (and stays) ready 3 seconds in. -/
def readyAfter3 : Nat → Bool := fun t => decide (3 ≤ t)

/-- A transport that never becomes ready. -/
def readyNever : Nat → Bool := fun _ => false

/-- Witness for C8: the transport ready after 3 seconds is served at the
3-second poll, inside the window; the never-ready transport ends in the logged
failure. -/
theorem send_bounded_retry_witness :
    send readyAfter3 = SendResult.sent 3
    ∧ send readyNever = SendResult.failedLogged := by
  constructor
  · obtain ⟨t₀, h1, _, h3, h4⟩ :=
      (send_bounded_retry readyAfter3).2.1 3 (by decide) (by decide)
    have ht : t₀ = 3 := by
      simp only [readyAfter3, decide_eq_true_eq] at h3
      omega
    rw [ht] at h4
    exact h4
  · exact (send_bounded_retry readyNever).2.2.1 (fun u _ => rfl)

/-! ## The canonicalization property (C3) -/

/-- The unit normalization applied by `hydra_assets`: an empty unit collapses
to the lovelace sentinel. -/
def normUnit (u : String) : String :=
  if u = "" then "lovelace" else u

/-- Total quantity of entries whose normalized unit is `u`. -/
def sumNorm (entries : List (String × Int)) (u : String) : Int :=
  match entries with
  | [] => 0
  | e :: rest => (if normUnit e.1 = u then e.2 else 0) + sumNorm rest u

/-- Distinct keys, the invariant of every Python dictionary. -/
def NodupKeys (d : HydraAssets) : Prop :=
  (d.map Prod.fst).Nodup

/-- A `(unit, quantity)` entry as the 2-tuple passed to `hydra_assets`. -/
def pairEntry (e : String × Int) : AssetEntry :=
  .pair e.1 e.2

lemma except_bind_ok {α β : Type} (x : α) (f : α → Except PyExc β) :
    (Except.ok x >>= f) = f x := rfl

lemma dictGet_dictSet_self (d : HydraAssets) (k : String) (v : Int) :
    dictGet (dictSet d k v) k = some v := by
  induction d with
  | nil => simp [dictSet, dictGet]
  | cons hd tl ih =>
      obtain ⟨k₁, v₁⟩ := hd
      by_cases h : k₁ = k <;> simp [dictSet, dictGet, h, ih]

lemma dictGet_dictSet_ne (d : HydraAssets) (k : String) (v : Int) (u : String)
    (h : u ≠ k) : dictGet (dictSet d k v) u = dictGet d u := by
  induction d with
  | nil => simp [dictSet, dictGet, Ne.symm h]
  | cons hd tl ih =>
      obtain ⟨k₁, v₁⟩ := hd
      rw [dictSet]
      by_cases h₁ : k₁ = k
      · subst h₁
        rw [if_pos rfl]
        simp [dictGet, Ne.symm h]
      · rw [if_neg h₁]
        simp only [dictGet]
        by_cases h₂ : k₁ = u <;> simp [h₂, ih]

lemma dictGet_isSome_iff (d : HydraAssets) (u : String) :
    (dictGet d u).isSome ↔ u ∈ d.map Prod.fst := by
  induction d with
  | nil => simp [dictGet]
  | cons hd tl ih =>
      obtain ⟨k₁, v₁⟩ := hd
      rw [dictGet]
      by_cases h : k₁ = u
      · subst h
        simp
      · rw [if_neg h]
        simp only [List.map_cons, List.mem_cons]
        rw [ih]
        constructor
        · exact Or.inr
        · rintro (he | he)
          · exact absurd he.symm h
          · exact he

lemma dictGet_eq_none_of_not_mem (d : HydraAssets) (u : String)
    (h : u ∉ d.map Prod.fst) : dictGet d u = none := by
  have := (dictGet_isSome_iff d u).not.mpr h
  cases hd : dictGet d u
  · rfl
  · rw [hd] at this
    simp at this

lemma mem_keys_dictSet (d : HydraAssets) (k : String) (v : Int) (u : String) :
    u ∈ (dictSet d k v).map Prod.fst ↔ u ∈ d.map Prod.fst ∨ u = k := by
  induction d with
  | nil => simp [dictSet]
  | cons hd tl ih =>
      obtain ⟨k₁, v₁⟩ := hd
      rw [dictSet]
      by_cases h : k₁ = k
      · subst h
        rw [if_pos rfl]
        simp only [List.map_cons, List.mem_cons]
        tauto
      · rw [if_neg h]
        simp only [List.map_cons, List.mem_cons]
        rw [ih]
        tauto

lemma nodupKeys_dictSet (d : HydraAssets) (k : String) (v : Int)
    (h : NodupKeys d) : NodupKeys (dictSet d k v) := by
  induction d with
  | nil => simp [dictSet, NodupKeys]
  | cons hd tl ih =>
      obtain ⟨k₁, v₁⟩ := hd
      rw [NodupKeys, List.map_cons, List.nodup_cons] at h
      rw [dictSet]
      by_cases hk : k₁ = k
      · rw [if_pos hk, NodupKeys, List.map_cons, List.nodup_cons]
        exact ⟨h.1, h.2⟩
      · rw [if_neg hk, NodupKeys, List.map_cons, List.nodup_cons]
        refine ⟨?_, ih h.2⟩
        rw [mem_keys_dictSet]
        push_neg
        exact ⟨h.1, hk⟩

lemma dictGet_filter_nonzero (d : HydraAssets) (u : String) (h : NodupKeys d) :
    dictGet (d.filter (fun kv => kv.2 ≠ 0)) u =
      match dictGet d u with
      | some q => if q = 0 then none else some q
      | none => none := by
  induction d with
  | nil => simp [dictGet]
  | cons hd tl ih =>
      obtain ⟨k₁, v₁⟩ := hd
      rw [NodupKeys, List.map_cons, List.nodup_cons] at h
      rw [List.filter_cons]
      by_cases hv : v₁ = 0
      · subst hv
        rw [if_neg (by simp)]
        by_cases hk : k₁ = u
        · subst hk
          have hnone : dictGet tl k₁ = none :=
            dictGet_eq_none_of_not_mem tl k₁ h.1
          rw [ih h.2, hnone]
          simp [dictGet]
        · rw [ih h.2]
          simp [dictGet, hk]
      · rw [if_pos (by simpa using hv)]
        by_cases hk : k₁ = u
        · subst hk
          simp [dictGet, hv]
        · simp only [dictGet, if_neg hk]
          rw [ih h.2]

lemma sumNorm_eq_zero (entries : List (String × Int)) (u : String)
    (h : ∀ e ∈ entries, normUnit e.1 ≠ u) : sumNorm entries u = 0 := by
  induction entries with
  | nil => rfl
  | cons e rest ih =>
      rw [sumNorm, if_neg (h e (by simp)), ih (fun e he => h e (by simp [he]))]
      simp

/-- One step of the `hydra_assets` loop on a well-formed 2-tuple with
non-negative quantity. -/
lemma hydraAssetsLoop_cons (u₁ : String) (q₁ : Int)
    (rest : List (String × Int)) (acc : HydraAssets) (hq : ¬q₁ < 0) :
    hydraAssetsLoop (((u₁, q₁) :: rest).map pairEntry) acc =
      hydraAssetsLoop (rest.map pairEntry)
        (dictSet acc (normUnit u₁) (dictGetD acc (normUnit u₁) + q₁)) := by
  simp only [List.map_cons, hydraAssetsLoop, pairEntry, tupleUnpack2,
    except_bind_ok]
  rw [if_neg hq]
  rfl

/-- The loop errors at the first negative entry. -/
lemma hydraAssetsLoop_err (entries : List (String × Int)) :
    ∀ acc, (∃ e ∈ entries, e.2 < 0) →
      ∃ u q, (u, q) ∈ entries ∧ q < 0 ∧
        hydraAssetsLoop (entries.map pairEntry) acc =
          .error (.valueError s!"Negative quantity for asset {u}: {q}") := by
  induction entries with
  | nil => simp
  | cons e rest ih =>
      obtain ⟨u₁, q₁⟩ := e
      intro acc hex
      by_cases hq : q₁ < 0
      · refine ⟨u₁, q₁, by simp, hq, ?_⟩
        simp only [List.map_cons, hydraAssetsLoop, pairEntry, tupleUnpack2,
          except_bind_ok]
        rw [if_pos hq]
      · have hrest : ∃ e ∈ rest, e.2 < 0 := by
          rcases hex with ⟨e, he, hlt⟩
          rcases List.mem_cons.mp he with he | he
          · rw [he] at hlt
            exact absurd hlt hq
          · exact ⟨e, he, hlt⟩
        obtain ⟨u, q, hmem, hlt, heq⟩ :=
          ih (dictSet acc (normUnit u₁) (dictGetD acc (normUnit u₁) + q₁)) hrest
        exact ⟨u, q, by simp [hmem], hlt, by rw [hydraAssetsLoop_cons _ _ _ _ hq, heq]⟩

/-- The loop invariant on non-negative inputs: quantities accumulate per
normalized unit, keys are the accumulator's keys plus the normalized units
seen, and key distinctness is preserved. -/
lemma hydraAssetsLoop_ok (entries : List (String × Int)) :
    ∀ acc, (∀ e ∈ entries, 0 ≤ e.2) →
      ∃ m, hydraAssetsLoop (entries.map pairEntry) acc = .ok m
        ∧ (∀ u, dictGetD m u = dictGetD acc u + sumNorm entries u)
        ∧ (∀ u, (dictGet m u).isSome ↔
            ((dictGet acc u).isSome ∨ ∃ e ∈ entries, normUnit e.1 = u))
        ∧ (NodupKeys acc → NodupKeys m) := by
  induction entries with
  | nil =>
      intro acc _
      refine ⟨acc, rfl, by simp [sumNorm], by simp [sumNorm], id⟩
  | cons e rest ih =>
      obtain ⟨u₁, q₁⟩ := e
      intro acc hpos
      have hq : ¬q₁ < 0 := by
        have := hpos (u₁, q₁) (by simp)
        omega
      set acc₁ := dictSet acc (normUnit u₁) (dictGetD acc (normUnit u₁) + q₁) with hacc₁
      obtain ⟨m, heq, hsum, hsome, hnd⟩ :=
        ih acc₁ (fun e he => hpos e (by simp [he]))
      refine ⟨m, ?_, ?_, ?_, ?_⟩
      · rw [hydraAssetsLoop_cons _ _ _ _ hq, heq]
      · intro u
        rw [hsum u, sumNorm]
        by_cases hu : normUnit u₁ = u
        · subst hu
          rw [hacc₁]
          rw [show dictGetD (dictSet acc (normUnit u₁)
              (dictGetD acc (normUnit u₁) + q₁)) (normUnit u₁) =
              dictGetD acc (normUnit u₁) + q₁ by
            rw [dictGetD, dictGet_dictSet_self]; rfl]
          simp
          omega
        · rw [if_neg hu, hacc₁]
          rw [show dictGetD (dictSet acc (normUnit u₁)
              (dictGetD acc (normUnit u₁) + q₁)) u = dictGetD acc u by
            rw [dictGetD, dictGet_dictSet_ne _ _ _ _ (fun he => hu he.symm)]; rfl]
          omega
      · intro u
        rw [hsome u, hacc₁]
        by_cases hu : normUnit u₁ = u
        · subst hu
          rw [show dictGet (dictSet acc (normUnit u₁)
              (dictGetD acc (normUnit u₁) + q₁)) (normUnit u₁) =
              some (dictGetD acc (normUnit u₁) + q₁) from
            dictGet_dictSet_self _ _ _]
          simp
        · rw [dictGet_dictSet_ne _ _ _ _ (fun he => hu he.symm)]
          constructor
          · rintro (h | h)
            · exact Or.inl h
            · exact Or.inr (by rcases h with ⟨e, he, hne⟩; exact ⟨e, by simp [he], hne⟩)
          · rintro (h | ⟨e, he, hne⟩)
            · exact Or.inl h
            · rcases List.mem_cons.mp he with he | he
              · rw [he] at hne
                exact absurd hne hu
              · exact Or.inr ⟨e, he, hne⟩
      · intro hnda
        exact hnd (nodupKeys_dictSet _ _ _ hnda)

/-- C3: `hydra_assets` raises the `ValueError` naming an offending unit exactly
when some entry is negative (the second conjunct shows success — hence no
raise — on all-non-negative inputs, giving the claimed equivalence); on
success, looking up any unit in the result yields the sum of the entries whose
normalized unit it is (empty units merged under `"lovelace"`, a unit whose
total is zero — in particular any absent unit — yielding no binding), and no
entry of the result has quantity 0. -/
theorem canonicalize_negative_iff_and_sums (entries : List (String × Int)) :
    ((∃ e ∈ entries, e.2 < 0) →
      ∃ u q, (u, q) ∈ entries ∧ q < 0 ∧
        hydra_assets (entries.map pairEntry) =
          .error (.valueError s!"Negative quantity for asset {u}: {q}"))
    ∧ ((∀ e ∈ entries, 0 ≤ e.2) →
      ∃ m, hydra_assets (entries.map pairEntry) = .ok m
        ∧ (∀ u, dictGet m u =
            if sumNorm entries u = 0 then none else some (sumNorm entries u))
        ∧ (∀ kv ∈ m, kv.2 ≠ 0)) := by
  constructor
  · intro hex
    obtain ⟨u, q, hmem, hlt, heq⟩ :=
      hydraAssetsLoop_err entries [("lovelace", 0)] hex
    exact ⟨u, q, hmem, hlt, by rw [hydra_assets, heq]; rfl⟩
  · intro hpos
    obtain ⟨m₀, heq, hsum, hsome, hnd⟩ :=
      hydraAssetsLoop_ok entries [("lovelace", 0)] hpos
    have hnd₀ : NodupKeys m₀ := hnd (by simp [NodupKeys])
    refine ⟨m₀.filter (fun kv => kv.2 ≠ 0), by rw [hydra_assets, heq]; rfl, ?_, ?_⟩
    · intro u
      have hbase : dictGetD ([("lovelace", 0)] : HydraAssets) u = 0 := by
        rw [dictGetD, dictGet]
        split <;> simp [dictGet]
      have hgd : dictGetD m₀ u = sumNorm entries u := by
        rw [hsum u, hbase]
        omega
      rw [dictGet_filter_nonzero m₀ u hnd₀]
      cases hdg : dictGet m₀ u with
      | none =>
          have hz : sumNorm entries u = 0 := by
            have hns : ¬(dictGet m₀ u).isSome := by simp [hdg]
            rw [hsome u] at hns
            push_neg at hns
            refine sumNorm_eq_zero entries u ?_
            intro e he hne
            exact hns.2 e he hne
          rw [if_pos hz]
      | some q =>
          have hqv : q = sumNorm entries u := by
            rw [← hgd, dictGetD, hdg]
            rfl
          show (if q = 0 then (none : Option Int) else some q) =
            if sumNorm entries u = 0 then none else some (sumNorm entries u)
          by_cases hz : q = 0
          · rw [if_pos hz, if_pos (by omega)]
          · rw [if_neg hz, if_neg (by omega), hqv]
    · intro kv hkv
      have := (List.mem_filter.mp hkv).2
      simpa using this

/-- A list of entries containing a negative quantity. -/
def entriesWithNegative : List (String × Int) :=
  [("", 3), ("ab", -2)]

/-- A non-negative list of entries with an empty unit, a repeated unit and a
zero-sum unit. -/
def entriesAllNonneg : List (String × Int) :=
  [("", 3), ("abc", 2), ("abc", 3), ("zz", 0)]

/-- Witness for C3 at two concrete inputs: one containing a negative entry
(the error case) and one all-non-negative (the summing case). -/
theorem canonicalize_negative_iff_and_sums_witness :
    (∃ u q, (u, q) ∈ entriesWithNegative ∧ q < 0 ∧
      hydra_assets (entriesWithNegative.map pairEntry) =
        .error (.valueError s!"Negative quantity for asset {u}: {q}"))
    ∧ (∃ m, hydra_assets (entriesAllNonneg.map pairEntry) = .ok m
        ∧ (∀ u, dictGet m u =
            if sumNorm entriesAllNonneg u = 0 then none
            else some (sumNorm entriesAllNonneg u))
        ∧ (∀ kv ∈ m, kv.2 ≠ 0)) :=
  ⟨(canonicalize_negative_iff_and_sums entriesWithNegative).1 (by decide),
    (canonicalize_negative_iff_and_sums entriesAllNonneg).2 (by decide)⟩

/-! ## The short-unit property (C4) -/

/-- A unit satisfying the `AssetUnit` invariant, in checkable form: the
lovelace sentinel, or at least 56 characters whose policy slice is valid hex of
28 bytes and whose asset-name remainder fits pycardano's 32-byte bound. -/
def goodUnitB (u : String) : Bool :=
  decide (u = "lovelace") ||
    (decide (56 ≤ u.length) &&
      (match bytesFromhex (strTake u 56) with
       | .ok b => decide (b.length = 28)
       | .error _ => false) &&
      decide ((strEncodeUtf8 (strDrop u 56)).length ≤ 32))

/-- On a good non-lovelace unit the `try` block of `to_assets` succeeds. -/
lemma toAssetsTry_ok (u : String) (hg : goodUnitB u = true)
    (hu : u ≠ "lovelace") :
    toAssetsTry u = .ok (
      (bytesFromhex (strTake u 56)).toOption.getD [],
      strEncodeUtf8 (strDrop u 56)) := by
  rw [goodUnitB] at hg
  simp only [Bool.or_eq_true, Bool.and_eq_true, decide_eq_true_eq] at hg
  rcases hg with hg | ⟨⟨-, hb⟩, hn⟩
  · exact absurd hg hu
  · cases hfh : bytesFromhex (strTake u 56) with
    | error e => rw [hfh] at hb; cases hb
    | ok b =>
        rw [hfh] at hb
        simp only [decide_eq_true_eq] at hb
        rw [toAssetsTry, hfh, except_bind_ok, scriptHashMk, if_pos hb,
          except_bind_ok, assetNameMk, if_pos hn, except_bind_ok]
        rfl

/-- Unfolding of one `to_assets` loop step. -/
lemma toAssetsLoop_cons_eq (u : String) (q : Int) (rest : List (String × Int))
    (coin : Int) (ma : MultiAssetB) :
    toAssetsLoop ((u, q) :: rest) coin ma =
      if q = 0 then toAssetsLoop rest coin ma
      else if q < 0 then
        .error (.valueError s!"Negative quantity for unit {u}: {q}")
      else if u = "lovelace" then toAssetsLoop rest q ma
      else if u.length < 56 then
        .error (.valueError s!"Invalid unit length: {u}")
      else
        match toAssetsTry u with
        | .ok (ph, an) => toAssetsLoop rest coin (maSet ma ph an q)
        | .error (.valueError _) =>
            .error (.valueError s!"Invalid policy_id in unit: {u}")
        | .error e => .error e := rfl

set_option maxRecDepth 4096 in
/-- The `to_assets` loop raises `Invalid unit length` at the first short
non-lovelace unit when every other unit is well-formed with positive
quantity. -/
lemma toAssetsLoop_short (m : HydraAssets) :
    ∀ coin ma, (∀ e ∈ m, 0 < e.2) →
      (∀ e ∈ m, goodUnitB e.1 = true ∨ (e.1 ≠ "lovelace" ∧ e.1.length < 56)) →
      (∃ e ∈ m, e.1 ≠ "lovelace" ∧ e.1.length < 56) →
      ∃ u, u ≠ "lovelace" ∧ u.length < 56 ∧
        toAssetsLoop m coin ma =
          .error (.valueError s!"Invalid unit length: {u}") := by
  induction m with
  | nil => simp
  | cons e rest ih =>
      obtain ⟨u₁, q₁⟩ := e
      intro coin ma hq hgood hshort
      have hq₁ : 0 < q₁ := hq (u₁, q₁) (by simp)
      rw [toAssetsLoop_cons_eq]
      rw [if_neg (by omega : ¬q₁ = 0), if_neg (by omega : ¬q₁ < 0)]
      by_cases hu : u₁ = "lovelace"
      · rw [if_pos hu]
        refine ih q₁ ma (fun e he => hq e (by simp [he]))
          (fun e he => hgood e (by simp [he])) ?_
        rcases hshort with ⟨e, he, hne, hlen⟩
        rcases List.mem_cons.mp he with he | he
        · rw [he] at hne
          exact absurd hu hne
        · exact ⟨e, he, hne, hlen⟩
      · rw [if_neg hu]
        rcases hgood (u₁, q₁) (by simp) with hg | hb
        · have hlen : ¬u₁.length < 56 := by
            rw [goodUnitB] at hg
            simp only [Bool.or_eq_true, Bool.and_eq_true, decide_eq_true_eq] at hg
            rcases hg with hg | ⟨⟨hl, -⟩, -⟩
            · exact absurd hg hu
            · omega
          rw [if_neg hlen, toAssetsTry_ok u₁ hg hu]
          refine ih coin _ (fun e he => hq e (by simp [he]))
            (fun e he => hgood e (by simp [he])) ?_
          rcases hshort with ⟨e, he, hne, hlen'⟩
          rcases List.mem_cons.mp he with he | he
          · rw [he] at hlen'
            exact absurd hlen' hlen
          · exact ⟨e, he, hne, hlen'⟩
        · rw [if_pos hb.2]
          exact ⟨u₁, hb.1, hb.2, rfl⟩

/-- C4: for every canonical mapping that satisfies the data-model invariant on
its other entries (positive quantities, well-formed units) but contains a
non-lovelace unit shorter than 56 characters, `to_assets` — the conversion
producing the ledger-value shape `{"coin", "multi_asset"}` — raises the
`Invalid unit length` `ValueError` naming a short unit, rather than producing
a value. -/
theorem to_assets_short_unit_invalid_length (m : HydraAssets)
    (hq : ∀ e ∈ m, 0 < e.2)
    (hgood : ∀ e ∈ m, goodUnitB e.1 = true ∨ (e.1 ≠ "lovelace" ∧ e.1.length < 56))
    (hshort : ∃ e ∈ m, e.1 ≠ "lovelace" ∧ e.1.length < 56) :
    ∃ u, u ≠ "lovelace" ∧ u.length < 56 ∧
      to_assets m = .error (.valueError s!"Invalid unit length: {u}") :=
  toAssetsLoop_short m 0 [] hq hgood hshort

/-- A mapping with a lovelace entry, a valid 57-character unit and the short
unit `"abc"`. -/
def assetsWithShortUnit : HydraAssets :=
  [("lovelace", 5), (policy56 ++ "A", 2), ("abc", 7)]

set_option maxRecDepth 8192 in
/-- Witness for C4 at a concrete mapping containing the short unit `"abc"`. -/
theorem to_assets_short_unit_invalid_length_witness :
    ∃ u, u ≠ "lovelace" ∧ u.length < 56 ∧
      to_assets assetsWithShortUnit =
        .error (.valueError s!"Invalid unit length: {u}") :=
  to_assets_short_unit_invalid_length assetsWithShortUnit
    (by decide) (by decide) (by decide)

/-! ## The script-reference classifier (C5) -/

/-- Every `cbor2.loads` failure is an exception of the decode (`CBORError`)
family. -/
lemma cborLoads_error_shape (b : List Nat) (e : PyExc)
    (h : cborLoads b = .error e) : ∃ msg, e = .cborDecodeError msg := by
  rw [cborLoads] at h
  cases hd : cborDecodeMany (b.length + 1) 1 b with
  | ok p =>
      obtain ⟨vs, r⟩ := p
      rw [hd] at h
      rcases vs with _ | ⟨v, _ | ⟨w, tl⟩⟩
      · injection h with h'
        exact ⟨"premature end of stream", h'.symm⟩
      · cases h
      · injection h with h'
        exact ⟨"premature end of stream", h'.symm⟩
  | error msg =>
      rw [hd] at h
      injection h with h'
      exact ⟨msg, h'.symm⟩

/-- Every `bytes.fromhex` failure is a `ValueError`. -/
lemma bytesFromhex_error_shape (s : String) (e : PyExc)
    (h : bytesFromhex s = .error e) :
    e = .valueError "non-hexadecimal number found in fromhex() arg" := by
  rw [bytesFromhex] at h
  cases hf : fromhexAux s.toList with
  | some bs => rw [hf] at h; cases h
  | none => rw [hf] at h; injection h with h'; exact h'.symm

/-- The `except (ValueError, cbor2.CBORError)` handler around the `try` block:
caught exceptions degrade to the `Unknown` defaults, others propagate. -/
def postHandler (r : Except PyExc HydraScriptInfomation) :
    Except PyExc HydraScriptInfomation :=
  match r with
  | .ok info => .ok info
  | .error e =>
      if caughtByRefScriptHandler e then .ok unknownScriptInfo
      else .error e

/-- For a non-empty input the classifier is the handler applied to the `try`
block. -/
lemma getRefInfo_some (s : String) (hs : s ≠ "") :
    get_reference_script_info (some s) = postHandler (refScriptTryBlock s) := by
  simp only [get_reference_script_info, if_neg hs, postHandler]

/-- Unfolding of the `try` block once hex and CBOR decoding succeed. -/
lemma refTry_eq (s : String) (b : PyBytes) (v : CborVal)
    (hb : bytesFromhex s = .ok b) (hc : cborLoads b = .ok v) :
    refScriptTryBlock s =
      match v with
      | .tag tagNum payload =>
          if tagNum = 24 then classifyPayload payload
          else .ok unknownScriptInfo
      | _ => .ok unknownScriptInfo := by
  simp only [refScriptTryBlock, hb, hc]
  cases v <;> rfl

/-- C5 (amended): the classifier's full case analysis.  Absent input, empty
hex, bad hex, malformed CBOR, non-tag-24 items, inner payloads that are not
2-element lists, and unrecognized type ids all yield the `Unknown` default
without raising; a tag-24 envelope over a byte string decoding to
`[0, nativeScript]` yields `SimpleScript`/`NativeScript`, and `[k, bytes]` for
`k` in 1, 2, 3 yields `PlutusScriptVk` keyed by the literal id; but a tag-24
envelope whose payload is not a byte string raises an uncaught `TypeError`
(the inner `cbor2.loads` call). -/
theorem ref_script_classifier_behavior :
    (get_reference_script_info none = .ok unknownScriptInfo)
    ∧ (get_reference_script_info (some "") = .ok unknownScriptInfo)
    ∧ (∀ s e, s ≠ "" → bytesFromhex s = .error e →
        get_reference_script_info (some s) = .ok unknownScriptInfo)
    ∧ (∀ s b e, s ≠ "" → bytesFromhex s = .ok b → cborLoads b = .error e →
        get_reference_script_info (some s) = .ok unknownScriptInfo)
    ∧ (∀ s b v, s ≠ "" → bytesFromhex s = .ok b → cborLoads b = .ok v →
        (∀ t p, v = .tag t p → t ≠ 24) →
        get_reference_script_info (some s) = .ok unknownScriptInfo)
    ∧ (∀ s b p, s ≠ "" → bytesFromhex s = .ok b →
        cborLoads b = .ok (.tag 24 p) → (∀ bs, p ≠ .bytes bs) →
        get_reference_script_info (some s) =
          .error (.typeError "a bytes-like object is required"))
    ∧ (∀ s b inner e, s ≠ "" → bytesFromhex s = .ok b →
        cborLoads b = .ok (.tag 24 (.bytes inner)) → cborLoads inner = .error e →
        get_reference_script_info (some s) = .ok unknownScriptInfo)
    ∧ (∀ s b inner sd, s ≠ "" → bytesFromhex s = .ok b →
        cborLoads b = .ok (.tag 24 (.bytes inner)) → cborLoads inner = .ok sd →
        (∀ x y, sd ≠ .arr [x, y]) →
        get_reference_script_info (some s) = .ok unknownScriptInfo)
    ∧ (∀ s b inner content ns, s ≠ "" → bytesFromhex s = .ok b →
        cborLoads b = .ok (.tag 24 (.bytes inner)) →
        cborLoads inner = .ok (.arr [.int 0, content]) →
        nativeScriptFromPrimitive content = .ok ns →
        get_reference_script_info (some s) =
          .ok ⟨some (.native ns), "SimpleScript",
            some "NativeScriptLanguage SimpleScript"⟩)
    ∧ (∀ s b inner k pb, s ≠ "" → bytesFromhex s = .ok b →
        cborLoads b = .ok (.tag 24 (.bytes inner)) →
        cborLoads inner = .ok (.arr [.int k, .bytes pb]) →
        (k = 1 ∨ k = 2 ∨ k = 3) →
        get_reference_script_info (some s) =
          .ok ⟨some (.plutus k pb), s!"PlutusScriptV{k}",
            some s!"PlutusScriptLanguage PlutusScriptV{k}"⟩)
    ∧ (∀ s b inner k content, s ≠ "" → bytesFromhex s = .ok b →
        cborLoads b = .ok (.tag 24 (.bytes inner)) →
        cborLoads inner = .ok (.arr [.int k, content]) →
        ¬(k = 0 ∨ k = 1 ∨ k = 2 ∨ k = 3) →
        get_reference_script_info (some s) = .ok unknownScriptInfo) := by
  refine ⟨rfl, rfl, ?_, ?_, ?_, ?_, ?_, ?_, ?_, ?_, ?_⟩
  · intro s e hs hb
    have he := bytesFromhex_error_shape s e hb
    subst he
    rw [getRefInfo_some s hs]
    have ht : refScriptTryBlock s =
        .error (.valueError "non-hexadecimal number found in fromhex() arg") := by
      simp only [refScriptTryBlock, hb]
    rw [ht]
    rfl
  · intro s b e hs hb hc
    rcases cborLoads_error_shape b e hc with ⟨msg, rfl⟩
    rw [getRefInfo_some s hs]
    have ht : refScriptTryBlock s = .error (.cborDecodeError msg) := by
      simp only [refScriptTryBlock, hb, hc]
    rw [ht]
    rfl
  · intro s b v hs hb hc hnt
    rw [getRefInfo_some s hs, refTry_eq s b v hb hc]
    cases v with
    | tag t p =>
        show postHandler (if t = 24 then classifyPayload p
          else .ok unknownScriptInfo) = _
        rw [if_neg (hnt t p rfl)]
        rfl
    | int n => rfl
    | bytes bs => rfl
    | text bs => rfl
    | arr xs => rfl
    | map kvs => rfl
    | simple n => rfl
  · intro s b p hs hb hc hnb
    rw [getRefInfo_some s hs, refTry_eq s b _ hb hc]
    cases p with
    | bytes bs => exact absurd rfl (hnb bs)
    | int n => rfl
    | text bs => rfl
    | arr xs => rfl
    | map kvs => rfl
    | tag t v => rfl
    | simple n => rfl
  · intro s b inner e hs hb hc hi
    rcases cborLoads_error_shape inner e hi with ⟨msg, rfl⟩
    rw [getRefInfo_some s hs, refTry_eq s b _ hb hc]
    show postHandler (classifyPayload (.bytes inner)) = _
    simp only [classifyPayload, hi]
    rfl
  · intro s b inner sd hs hb hc hi hna
    rw [getRefInfo_some s hs, refTry_eq s b _ hb hc]
    show postHandler (classifyPayload (.bytes inner)) = _
    simp only [classifyPayload, hi]
    cases sd with
    | arr xs =>
        rcases xs with _ | ⟨x, _ | ⟨y, _ | ⟨z, tl⟩⟩⟩
        · rfl
        · rfl
        · exact absurd rfl (hna x y)
        · rfl
    | int n => rfl
    | bytes bs => rfl
    | text bs => rfl
    | map kvs => rfl
    | tag t v => rfl
    | simple n => rfl
  · intro s b inner content ns hs hb hc hi hns
    rw [getRefInfo_some s hs, refTry_eq s b _ hb hc]
    show postHandler (classifyPayload (.bytes inner)) = _
    simp only [classifyPayload, hi, classifyScriptData, hns]
    rfl
  · intro s b inner k pb hs hb hc hi hk
    rcases hk with rfl | rfl | rfl <;>
      · rw [getRefInfo_some s hs, refTry_eq s b _ hb hc]
        show postHandler (classifyPayload (.bytes inner)) = _
        simp only [classifyPayload, hi]
        rfl
  · intro s b inner k content hs hb hc hi hk
    push_neg at hk
    obtain ⟨h0, h1, h2, h3⟩ := hk
    rw [getRefInfo_some s hs, refTry_eq s b _ hb hc]
    show postHandler (classifyPayload (.bytes inner)) = _
    simp only [classifyPayload, hi]
    simp [classifyScriptData, cborEqInt, h0, h1, h2, h3, postHandler]

/-- Witness for C5's amended theorem: the tag-24 envelope over
`[2, h'AABB']` (hex `d81845820242aabb`) classifies as `PlutusScriptV2`. -/
theorem ref_script_classifier_behavior_witness :
    get_reference_script_info (some "d81845820242aabb") =
      .ok ⟨some (.plutus 2 [170, 187]), "PlutusScriptV2",
        some "PlutusScriptLanguage PlutusScriptV2"⟩ :=
  ref_script_classifier_behavior.2.2.2.2.2.2.2.2.2.1
    "d81845820242aabb" [216, 24, 69, 130, 2, 66, 170, 187]
    [130, 2, 66, 170, 187] 2 [170, 187]
    (by decide) rfl rfl rfl (Or.inr (Or.inl rfl))

end PyHydra
